import Mathlib

/-!
Verification of the command runner in
`.github/workflows/scripts/automate_system.py`.

The script reads configuration from the process environment, selects one of
two execution strategies (local subprocess or remote SSH session), runs an
ordered list of shell commands fail-fast, and prints a JSON summary.

Modelling conventions:
- The process environment is a function `String → Option String`
  (`os.getenv name` returns `None` when the variable is unset).
- External effects (the paramiko import, key parsing, `client.connect`,
  `client.exec_command` together with `recv_exit_status` and the stream
  reads) are oracles collected in an `SSHWorld`; local `subprocess.run`
  is an oracle `String → Int × String × String`
  (returncode, stdout, stderr).
- Python exceptions are modelled with `Except PyExn`; the value
  `Except.error e` at the top level of a function means the exception `e`
  escapes that function uncaught.  The `except Exception` handler in
  `run_ssh` catches every modelled exception inside its `try` block.
- Observable resource events (connection attempts, opened sessions,
  command executions, session closes) are recorded in a trace so that
  resource-handling claims can be stated.
-/

/-- A Python exception, as far as the script can observe it: its class
(`NameError` is distinguished because the script raises one) and the text
`str(e)`. Both constructors are `Exception` subclasses, so both are caught
by an `except Exception` handler. -/
inductive PyExn where
  | nameError (m : String)
  | exn (m : String)
deriving DecidableEq, Repr

/-- The text `str(e)` used when formatting the exception. -/
def PyExn.msg : PyExn → String
  | .nameError m => m
  | .exn m => m

/-- The process environment: `os.environ` as a partial map. -/
def Env : Type := String → Option String

/-- Embeds `os.getenv(name, dflt)`. -/
def getenv (env : Env) (name dflt : String) : String :=
  (env name).getD dflt

/-- Python truthiness of a string: non-empty strings are truthy. -/
def truthy (s : String) : Bool :=
  s != ""

/-- Module global `SSH_MODE = os.getenv("AUTOMATE_VIA_SSH", "") == "1"`. -/
def SSH_MODE (env : Env) : Bool :=
  getenv env "AUTOMATE_VIA_SSH" "" == "1"

/-- Module global `SYSTEM_HOST = os.getenv("SYSTEM_HOST", "")`. -/
def SYSTEM_HOST (env : Env) : String :=
  getenv env "SYSTEM_HOST" ""

/-- Module global `SYSTEM_USER = os.getenv("SYSTEM_USER", "")`. -/
def SYSTEM_USER (env : Env) : String :=
  getenv env "SYSTEM_USER" ""

/-- Module global `SSH_PRIVATE_KEY = os.getenv("SSH_PRIVATE_KEY", "")`. -/
def SSH_PRIVATE_KEY (env : Env) : String :=
  getenv env "SSH_PRIVATE_KEY" ""

/-- Module global `AUTOMATION_COMMAND = os.getenv("AUTOMATION_COMMAND", "")`. -/
def AUTOMATION_COMMAND (env : Env) : String :=
  getenv env "AUTOMATION_COMMAND" ""

/-- Module global `DEFAULT_COMMANDS`: the built-in three-command sequence. -/
def DEFAULT_COMMANDS : List String :=
  ["echo \x27Step 1: Pull latest code or artifacts\x27",
   "echo \x27Step 2: Run tests\x27",
   "echo \x27Step 3: Restart service\x27"]

/-- Observable resource events of one run. -/
inductive Event where
  | connectAttempt (host user : String)
  | connected (host user : String)
  | execRemote (cmd : String)
  | closed
  | execLocal (cmd : String)
deriving DecidableEq, Repr

/-- Loop body of `run_local`: walks the command list, appending for each
executed command the entries `"$ " ++ cmd`, its stdout and its stderr, and
stopping at the first non-zero returncode.  Returns the final exit code,
the accumulated output entries (joined by the caller) and the trace of
executed commands. -/
def run_localGo (lexec : String → Int × String × String) :
    List String → Int × List String × List Event
  | [] => (0, [], [])
  | cmd :: rest =>
    let r := lexec cmd
    if r.1 ≠ 0 then
      (r.1, ["$ " ++ cmd, r.2.1, r.2.2], [Event.execLocal cmd])
    else
      let t := run_localGo lexec rest
      (t.1, ("$ " ++ cmd) :: r.2.1 :: r.2.2 :: t.2.1, Event.execLocal cmd :: t.2.2)

/-- Embeds `run_local(commands)`: the local strategy.  `lexec` is the
oracle for `subprocess.run(cmd, shell=True, capture_output=True,
text=True)`, giving (returncode, stdout, stderr). -/
def run_local (lexec : String → Int × String × String) (commands : List String) :
    Int × String :=
  let t := run_localGo lexec commands
  (t.1, String.intercalate "\n" t.2.1)

/-- Events produced by the local strategy on a command list. -/
def localEvents (lexec : String → Int × String × String) (commands : List String) :
    List Event :=
  (run_localGo lexec commands).2.2

/-- Oracles for the runtime effects the remote strategy performs. -/
structure SSHWorld where
  /-- Whether `import paramiko` succeeds. -/
  paramiko_installed : Bool
  /-- Result of evaluating the expression `io.StringIO(key_text)` in the
  module scope (see `moduleIoWrap` for the value this has in the source
  module). -/
  ioWrap : String → Except PyExn String
  /-- Result of `paramiko.RSAKey.from_private_key(wrapped)`. -/
  keyParse : String → Except PyExn String
  /-- Result of `client.connect(hostname, username, pkey=key, timeout=20)`. -/
  connect : String → String → String → Except PyExn Unit
  /-- Result of `client.exec_command(cmd)` followed by
  `stdout.channel.recv_exit_status()` and the two stream reads: either an
  exception somewhere in those steps, or (exit status, stdout, stderr). -/
  exec : String → Except PyExn (Int × String × String)

/-- In `automate_system.py` the imports are exactly os, sys, json and
subprocess: the name io is never bound in the module, so evaluating
`io.StringIO(SSH_PRIVATE_KEY)` raises `NameError` before any key parsing
or connection can happen.  This definition is the value `SSHWorld.ioWrap`
has for the module as written. -/
def moduleIoWrap : String → Except PyExn String :=
  fun _ => Except.error (PyExn.nameError "name \x27io\x27 is not defined")

/-- Message returned when `import paramiko` fails. -/
def paramikoMsg : String :=
  "paramiko not installed. Add paramiko to requirements.txt or install it."

/-- Message returned when a required remote-mode variable is empty. -/
def missingMsg : String :=
  "Missing SYSTEM_HOST, SYSTEM_USER or SSH_PRIVATE_KEY for SSH mode."

/-- Message produced by the `except Exception` handler of `run_ssh`. -/
def sshErrorMsg (e : PyExn) : String :=
  "SSH error: " ++ e.msg

/-- Loop of `run_ssh` (inside its `try` block): for each command run
`exec_command`, read the exit status and both streams, append the entries
`"$ " ++ cmd`, stdout and stderr, and stop at the first non-zero exit
status (the source calls `client.close()` before both of its returns; the
close event is emitted by `run_ssh` itself).  `Except.error` means an
exception was raised during command execution. -/
def sshGo (w : SSHWorld) : List String → Except PyExn (Int × List String) × List Event
  | [] => (Except.ok (0, []), [])
  | cmd :: rest =>
    match w.exec cmd with
    | Except.error e => (Except.error e, [Event.execRemote cmd])
    | Except.ok (status, out, err) =>
      if status ≠ 0 then
        (Except.ok (status, ["$ " ++ cmd, out, err]), [Event.execRemote cmd])
      else
        let t := sshGo w rest
        (t.1.map (fun r => (r.1, ("$ " ++ cmd) :: out :: err :: r.2)),
         Event.execRemote cmd :: t.2)

/-- Embeds `run_ssh(commands)`: the remote strategy.  Reads the module
globals from `env`; all runtime effects come from `w`.  The first
component is the returned pair, or the exception escaping `run_ssh`
uncaught; the second is the event trace. -/
def run_ssh (w : SSHWorld) (env : Env) (commands : List String) :
    Except PyExn (Int × String) × List Event :=
  if !w.paramiko_installed then
    (Except.ok (1, paramikoMsg), [])
  else if !(truthy (SYSTEM_HOST env) && truthy (SYSTEM_USER env)
            && truthy (SSH_PRIVATE_KEY env)) then
    (Except.ok (1, missingMsg), [])
  else
    match w.ioWrap (SSH_PRIVATE_KEY env) with
    | Except.error e => (Except.error e, [])
    | Except.ok sio =>
      match w.keyParse sio with
      | Except.error e => (Except.error e, [])
      | Except.ok key =>
        match w.connect (SYSTEM_HOST env) (SYSTEM_USER env) key with
        | Except.error e =>
          (Except.ok (1, sshErrorMsg e),
           [Event.connectAttempt (SYSTEM_HOST env) (SYSTEM_USER env)])
        | Except.ok _ =>
          match sshGo w commands with
          | (Except.error e, evs) =>
            (Except.ok (1, sshErrorMsg e),
             Event.connectAttempt (SYSTEM_HOST env) (SYSTEM_USER env)
               :: Event.connected (SYSTEM_HOST env) (SYSTEM_USER env) :: evs)
          | (Except.ok (c, entries), evs) =>
            (Except.ok (c, String.intercalate "\n" entries),
             Event.connectAttempt (SYSTEM_HOST env) (SYSTEM_USER env)
               :: Event.connected (SYSTEM_HOST env) (SYSTEM_USER env)
               :: (evs ++ [Event.closed]))

/-- The summary dict built in `main`. -/
structure Summary where
  ssh_mode : Bool
  system_host : Option String
  exit_code : Int
  output : String

/-- Lower-case hexadecimal digit. -/
def hexChar (n : Nat) : Char :=
  if n < 10 then Char.ofNat (48 + n) else Char.ofNat (87 + n)

/-- Four lower-case hexadecimal digits, as `json.dumps` writes them. -/
def hex4 (n : Nat) : String :=
  String.mk [hexChar (n / 4096 % 16), hexChar (n / 256 % 16),
             hexChar (n / 16 % 16), hexChar (n % 16)]

/-- How `json.dumps` (default `ensure_ascii=True`) escapes one character
of a string value. -/
def jsonEscapeChar (c : Char) : String :=
  if c = '"' then "\\\""
  else if c = '\\' then "\\\\"
  else if c = '\n' then "\\n"
  else if c = '\r' then "\\r"
  else if c = '\t' then "\\t"
  else if c = '\x08' then "\\b"
  else if c = '\x0c' then "\\f"
  else if c.toNat < 32 then "\\u" ++ hex4 c.toNat
  else if c.toNat ≤ 126 then String.singleton c
  else if c.toNat < 65536 then "\\u" ++ hex4 c.toNat
  else
    "\\u" ++ hex4 (55296 + (c.toNat - 65536) / 1024)
      ++ "\\u" ++ hex4 (56320 + (c.toNat - 65536) % 1024)

/-- String-value escaping of `json.dumps`. -/
def jsonEscape (s : String) : String :=
  String.join (s.toList.map jsonEscapeChar)

/-- Serialization of the summary dict by `json.dumps(summary, indent=2)`:
insertion-ordered keys, two-space indent, Python `None` as JSON null. -/
def dumps (s : Summary) : String :=
  "\x7b\n  \"ssh_mode\": " ++ (if s.ssh_mode then "true" else "false")
    ++ ",\n  \"system_host\": "
    ++ (match s.system_host with
        | none => "null"
        | some h => "\"" ++ jsonEscape h ++ "\"")
    ++ ",\n  \"exit_code\": " ++ toString s.exit_code
    ++ ",\n  \"output\": \"" ++ jsonEscape s.output ++ "\"\n\x7d"

/-- First line of `main`: the command list used by the run. -/
def commandsOf (env : Env) : List String :=
  if truthy (AUTOMATION_COMMAND env) then [AUTOMATION_COMMAND env]
  else DEFAULT_COMMANDS

/-- Combined-output entries the local strategy produces for a command
list when it executes every listed command: per command the line
`"$ " ++ cmd`, then its stdout, then its stderr. -/
def localOutput (lexec : String → Int × String × String) (cmds : List String) :
    List String :=
  cmds.flatMap (fun c => ["$ " ++ c, (lexec c).2.1, (lexec c).2.2])

/-- Combined-output entries the remote strategy produces for a command
list when it executes every listed command and none of them raises. -/
def sshOutput (w : SSHWorld) (cmds : List String) : List String :=
  cmds.flatMap (fun c =>
    match w.exec c with
    | Except.ok r => ["$ " ++ c, r.2.1, r.2.2]
    | Except.error _ => [])

/-- Embeds the source function `main()` (named `pyMain` here because Lean
reserves `main` for executables).  On the ok path the result is the printed JSON
document paired with the `sys.exit` code; `Except.error` means an
exception escaped `run_ssh` and crashed the process with no JSON
printed. -/
def pyMain (env : Env) (w : SSHWorld) (lexec : String → Int × String × String) :
    Except PyExn (String × Int) × List Event :=
  let commands := commandsOf env
  if SSH_MODE env then
    match run_ssh w env commands with
    | (Except.error e, evs) => (Except.error e, evs)
    | (Except.ok (code, output), evs) =>
      (Except.ok
        (dumps { ssh_mode := SSH_MODE env, system_host := some (SYSTEM_HOST env),
                 exit_code := code, output := output }, code), evs)
  else
    let r := run_local lexec commands
    (Except.ok
      (dumps { ssh_mode := SSH_MODE env, system_host := none,
               exit_code := r.1, output := r.2 }, r.1),
     localEvents lexec commands)

/-- Whether the character list `s` starts with the character list `p`. -/
def startsWithSeq : List Char → List Char → Bool
  | _, [] => true
  | [], _ :: _ => false
  | a :: s, b :: p => a == b && startsWithSeq s p

/-- Whether the character list `p` occurs contiguously inside `s`. -/
def containsSeq : List Char → List Char → Bool
  | [], p => p.isEmpty
  | a :: s, p => startsWithSeq (a :: s) p || containsSeq s p

/-- Whether the string `pat` occurs contiguously inside `s`. -/
def strContains (s pat : String) : Bool :=
  containsSeq s.data pat.data

/-- Remote-mode environment with all three remote values present. -/
def envRemote : Env := fun n =>
  if n = "AUTOMATE_VIA_SSH" then some "1"
  else if n = "SYSTEM_HOST" then some "host1"
  else if n = "SYSTEM_USER" then some "user1"
  else if n = "SSH_PRIVATE_KEY" then some "key1"
  else none

/-- Remote-mode environment with the three remote values all unset. -/
def envSshOnly : Env := fun n =>
  if n = "AUTOMATE_VIA_SSH" then some "1" else none

/-- Environment with every variable unset (local mode). -/
def envNone : Env := fun _ => none

/-- Local oracle where every command exits 0 with empty streams. -/
def lexecZero : String → Int × String × String := fun _ => (0, "", "")

/-- World where `import paramiko` fails; the remaining oracles are
irrelevant on that path. -/
def wNoParamiko : SSHWorld :=
  { paramiko_installed := false,
    ioWrap := moduleIoWrap,
    keyParse := fun _ => Except.error (PyExn.exn "unreached"),
    connect := fun _ _ _ => Except.error (PyExn.exn "unreached"),
    exec := fun _ => Except.error (PyExn.exn "unreached") }

/-- World with paramiko importable and the module value of `ioWrap`,
i.e. the runtime the source module actually has in remote mode. -/
def wModule : SSHWorld :=
  { paramiko_installed := true,
    ioWrap := moduleIoWrap,
    keyParse := fun s => Except.ok s,
    connect := fun _ _ _ => Except.ok (),
    exec := fun _ => Except.ok (0, "", "") }

/-- World where everything up to the connection works and every remote
command succeeds with empty streams. -/
def wHappy : SSHWorld :=
  { paramiko_installed := true,
    ioWrap := fun s => Except.ok s,
    keyParse := fun s => Except.ok s,
    connect := fun _ _ _ => Except.ok (),
    exec := fun _ => Except.ok (0, "", "") }

/-- World where the connection itself raises. -/
def wConnFail : SSHWorld :=
  { wHappy with connect := fun _ _ _ => Except.error (PyExn.exn "no route to host") }

theorem run_localGo_append (lexec : String → Int × String × String)
    (pre rest : List String) (h : ∀ x ∈ pre, (lexec x).1 = 0) :
    run_localGo lexec (pre ++ rest) =
      ((run_localGo lexec rest).1,
       localOutput lexec pre ++ (run_localGo lexec rest).2.1,
       pre.map Event.execLocal ++ (run_localGo lexec rest).2.2) := by
  induction pre with
  | nil => simp [localOutput]
  | cons a pre ih =>
    have ha : (lexec a).1 = 0 := h a (by simp)
    have h' : ∀ x ∈ pre, (lexec x).1 = 0 := fun x hx => h x (by simp [hx])
    simp [run_localGo, ha, localOutput, List.flatMap_cons, ih h']

theorem run_localGo_all_zero (lexec : String → Int × String × String)
    (cmds : List String) (h : ∀ x ∈ cmds, (lexec x).1 = 0) :
    run_localGo lexec cmds = (0, localOutput lexec cmds, cmds.map Event.execLocal) := by
  have h2 := run_localGo_append lexec cmds [] h
  simpa [run_localGo] using h2

theorem run_localGo_first_fail (lexec : String → Int × String × String)
    (pre : List String) (c : String) (post : List String)
    (hpre : ∀ x ∈ pre, (lexec x).1 = 0) (hc : (lexec c).1 ≠ 0) :
    run_localGo lexec (pre ++ c :: post) =
      ((lexec c).1, localOutput lexec (pre ++ [c]),
       (pre ++ [c]).map Event.execLocal) := by
  rw [run_localGo_append lexec pre (c :: post) hpre]
  simp [run_localGo, hc, localOutput, List.flatMap_append, List.flatMap_cons]

theorem localEvents_mem (lexec : String → Int × String × String)
    (cmds : List String) (ev : Event) (h : ev ∈ localEvents lexec cmds) :
    ∃ c, ev = Event.execLocal c := by
  induction cmds with
  | nil => simp [localEvents, run_localGo] at h
  | cons a rest ih =>
    by_cases ha : (lexec a).1 = 0
    · simp [localEvents, run_localGo, ha] at h
      rcases h with h | h
      · exact ⟨a, h⟩
      · exact ih (by simpa [localEvents] using h)
    · simp [localEvents, run_localGo, ha] at h
      exact ⟨a, h⟩

theorem sshGo_append (w : SSHWorld) (pre rest : List String)
    (h : ∀ x ∈ pre, ∃ o e, w.exec x = Except.ok (0, o, e)) :
    sshGo w (pre ++ rest) =
      ((sshGo w rest).1.map (fun r => (r.1, sshOutput w pre ++ r.2)),
       pre.map Event.execRemote ++ (sshGo w rest).2) := by
  induction pre with
  | nil =>
    show sshGo w rest = _
    rcases h1 : sshGo w rest with ⟨res, evs⟩
    rcases res with e | ⟨c, es⟩ <;> simp [sshOutput, Except.map]
  | cons a pre ih =>
    obtain ⟨o, e, hae⟩ := h a (by simp)
    have h' : ∀ x ∈ pre, ∃ o e, w.exec x = Except.ok (0, o, e) :=
      fun x hx => h x (by simp [hx])
    rcases h1 : sshGo w rest with ⟨res, evs⟩
    rcases res with e2 | ⟨c, es⟩ <;>
      simp [sshGo, hae, ih h', h1, Except.map, sshOutput, List.flatMap_cons]

theorem sshGo_all_zero (w : SSHWorld) (cmds : List String)
    (h : ∀ x ∈ cmds, ∃ o e, w.exec x = Except.ok (0, o, e)) :
    sshGo w cmds = (Except.ok (0, sshOutput w cmds), cmds.map Event.execRemote) := by
  have h2 := sshGo_append w cmds [] h
  simpa [sshGo, Except.map] using h2

theorem sshGo_first_fail (w : SSHWorld) (pre : List String) (c : String)
    (post : List String) (rc : Int) (o2 e2 : String)
    (hpre : ∀ x ∈ pre, ∃ o e, w.exec x = Except.ok (0, o, e))
    (hc : w.exec c = Except.ok (rc, o2, e2)) (hrc : rc ≠ 0) :
    sshGo w (pre ++ c :: post) =
      (Except.ok (rc, sshOutput w (pre ++ [c])),
       (pre ++ [c]).map Event.execRemote) := by
  rw [sshGo_append w pre (c :: post) hpre]
  simp [sshGo, hc, hrc, Except.map, sshOutput, List.flatMap_append, List.flatMap_cons]

theorem run_ssh_loop_error (w : SSHWorld) (env : Env) (cmds : List String)
    (sio key : String) (e : PyExn) (evs : List Event)
    (hp : w.paramiko_installed = true)
    (h3 : (truthy (SYSTEM_HOST env) && truthy (SYSTEM_USER env)
           && truthy (SSH_PRIVATE_KEY env)) = true)
    (hio : w.ioWrap (SSH_PRIVATE_KEY env) = Except.ok sio)
    (hkey : w.keyParse sio = Except.ok key)
    (hconn : w.connect (SYSTEM_HOST env) (SYSTEM_USER env) key = Except.ok ())
    (hgo : sshGo w cmds = (Except.error e, evs)) :
    run_ssh w env cmds =
      (Except.ok (1, sshErrorMsg e),
       Event.connectAttempt (SYSTEM_HOST env) (SYSTEM_USER env)
         :: Event.connected (SYSTEM_HOST env) (SYSTEM_USER env) :: evs) := by
  simp [run_ssh, hp, h3, hio, hkey, hconn, hgo]

theorem run_ssh_loop_ok (w : SSHWorld) (env : Env) (cmds : List String)
    (sio key : String) (c : Int) (entries : List String) (evs : List Event)
    (hp : w.paramiko_installed = true)
    (h3 : (truthy (SYSTEM_HOST env) && truthy (SYSTEM_USER env)
           && truthy (SSH_PRIVATE_KEY env)) = true)
    (hio : w.ioWrap (SSH_PRIVATE_KEY env) = Except.ok sio)
    (hkey : w.keyParse sio = Except.ok key)
    (hconn : w.connect (SYSTEM_HOST env) (SYSTEM_USER env) key = Except.ok ())
    (hgo : sshGo w cmds = (Except.ok (c, entries), evs)) :
    run_ssh w env cmds =
      (Except.ok (c, String.intercalate "\n" entries),
       Event.connectAttempt (SYSTEM_HOST env) (SYSTEM_USER env)
         :: Event.connected (SYSTEM_HOST env) (SYSTEM_USER env)
         :: (evs ++ [Event.closed])) := by
  simp [run_ssh, hp, h3, hio, hkey, hconn, hgo]

theorem pyMain_local (env : Env) (w : SSHWorld)
    (lexec : String → Int × String × String) (hm : SSH_MODE env = false) :
    pyMain env w lexec =
      (Except.ok
        (dumps { ssh_mode := false, system_host := none,
                 exit_code := (run_local lexec (commandsOf env)).1,
                 output := (run_local lexec (commandsOf env)).2 },
         (run_local lexec (commandsOf env)).1),
       localEvents lexec (commandsOf env)) := by
  simp [pyMain, hm]

/-- Claim C1: whenever the SSH session is opened it is closed before the
strategy returns, on every exit path.  This holds of the module as
written, vacuously: with the module's actual value of ioWrap every path
that passes the paramiko and configuration checks raises NameError at
the key-parse line before client.connect, so run_ssh produces an empty
event trace on every execution, no session is ever opened, and a
fortiori every run whose trace shows an opened session also shows a
close. -/
theorem c1_session_always_closed (w : SSHWorld) (env : Env) (cmds : List String)
    (hio : w.ioWrap = moduleIoWrap) :
    (run_ssh w env cmds).2 = [] ∧
    (∀ h u, Event.connected h u ∉ (run_ssh w env cmds).2) ∧
    (∀ h u, Event.connected h u ∈ (run_ssh w env cmds).2 →
       Event.closed ∈ (run_ssh w env cmds).2) := by
  have htr : (run_ssh w env cmds).2 = [] := by
    cases hp : w.paramiko_installed
    · simp [run_ssh, hp]
    · cases h3 : (truthy (SYSTEM_HOST env) && truthy (SYSTEM_USER env)
                  && truthy (SSH_PRIVATE_KEY env))
      · simp [run_ssh, hp, h3]
      · simp [run_ssh, hp, h3, hio, moduleIoWrap]
  refine ⟨htr, ?_, ?_⟩
  · intro h u hmem
    rw [htr] at hmem
    simp at hmem
  · intro h u hmem
    rw [htr] at hmem
    simp at hmem

/-- Claim C1, witness: at a concrete remote-mode input with all values
present and paramiko importable, the trace is empty (in particular no
session is opened, let alone left open). -/
theorem c1_session_always_closed_witness :
    (run_ssh wModule envRemote ["cmd1"]).2 = [] :=
  (c1_session_always_closed wModule envRemote ["cmd1"] rfl).1

/-- Claim C2: the spec says a key-parse failure or missing key-handling
capability in remote mode yields (1, descriptive message) rather than a
crash.  The paramiko-unavailable case is handled, but the key-parsing
line sits outside the try block and the module never imports io, so with
all three values present the strategy raises an uncaught NameError
instead of returning: the claim fails on the code as written. -/
theorem c2_key_parse_crashes (w : SSHWorld) (env : Env) (cmds : List String)
    (hio : w.ioWrap = moduleIoWrap)
    (hp : w.paramiko_installed = true)
    (h3 : (truthy (SYSTEM_HOST env) && truthy (SYSTEM_USER env)
           && truthy (SSH_PRIVATE_KEY env)) = true) :
    run_ssh w env cmds =
      (Except.error (PyExn.nameError "name \x27io\x27 is not defined"), []) := by
  simp [run_ssh, hp, h3, hio, moduleIoWrap]

/-- Claim C2, witness: the crash at a concrete remote-mode input with
all three values present and paramiko importable. -/
theorem c2_key_parse_crashes_witness :
    run_ssh wModule envRemote DEFAULT_COMMANDS =
      (Except.error (PyExn.nameError "name \x27io\x27 is not defined"), []) :=
  c2_key_parse_crashes wModule envRemote DEFAULT_COMMANDS rfl rfl (by decide)

/-- Claim C3: every exception raised during connection or command
execution in the remote strategy is caught at the strategy boundary and
converted to (1, "SSH error: " ++ description); no such exception
escapes.  Stated for every world in which control reaches the try block
(paramiko imports, the three values are present, the key steps succeed):
the strategy then always returns normally, a connect exception is
reported as the SSH error result, and so is an exception raised while
executing the commands. -/
theorem c3_boundary_catches_connect_and_exec (w : SSHWorld) (env : Env)
    (cmds : List String) (sio key : String)
    (hp : w.paramiko_installed = true)
    (h3 : (truthy (SYSTEM_HOST env) && truthy (SYSTEM_USER env)
           && truthy (SSH_PRIVATE_KEY env)) = true)
    (hio : w.ioWrap (SSH_PRIVATE_KEY env) = Except.ok sio)
    (hkey : w.keyParse sio = Except.ok key) :
    (∃ r, (run_ssh w env cmds).1 = Except.ok r) ∧
    (∀ e, w.connect (SYSTEM_HOST env) (SYSTEM_USER env) key = Except.error e →
       (run_ssh w env cmds).1 = Except.ok (1, sshErrorMsg e)) ∧
    (∀ e evs, w.connect (SYSTEM_HOST env) (SYSTEM_USER env) key = Except.ok () →
       sshGo w cmds = (Except.error e, evs) →
       (run_ssh w env cmds).1 = Except.ok (1, sshErrorMsg e)) := by
  refine ⟨?_, ?_, ?_⟩
  · rcases hc : w.connect (SYSTEM_HOST env) (SYSTEM_USER env) key with e | u
    · exact ⟨(1, sshErrorMsg e), by simp [run_ssh, hp, h3, hio, hkey, hc]⟩
    · rcases hgo : sshGo w cmds with ⟨res, evs⟩
      rcases res with e | ⟨c, entries⟩
      · exact ⟨(1, sshErrorMsg e),
          by rw [run_ssh_loop_error w env cmds sio key e evs hp h3 hio hkey
                   (by cases u; exact hc) hgo]⟩
      · exact ⟨(c, String.intercalate "\n" entries),
          by rw [run_ssh_loop_ok w env cmds sio key c entries evs hp h3 hio hkey
                   (by cases u; exact hc) hgo]⟩
  · intro e hc
    simp [run_ssh, hp, h3, hio, hkey, hc]
  · intro e evs hc hgo
    rw [run_ssh_loop_error w env cmds sio key e evs hp h3 hio hkey hc hgo]

/-- Claim C3, witness: a concrete connect failure is reported as the SSH
error result rather than escaping. -/
theorem c3_boundary_witness :
    (run_ssh wConnFail envRemote ["cmd1"]).1 =
      Except.ok (1, "SSH error: no route to host") :=
  (c3_boundary_catches_connect_and_exec wConnFail envRemote ["cmd1"] "key1" "key1"
      rfl (by decide) rfl rfl).2.1 (PyExn.exn "no route to host") rfl

/-- Claim C8 fails as stated: in remote mode with the remote values
empty but paramiko unavailable, the output is the paramiko message, not
the missing-configuration message (the exit code is still 1). -/
theorem c8_counterexample :
    SSH_MODE envSshOnly = true ∧
    SYSTEM_HOST envSshOnly = "" ∧
    run_ssh wNoParamiko envSshOnly (commandsOf envSshOnly) =
      (Except.ok (1, paramikoMsg), []) ∧
    paramikoMsg ≠ missingMsg := by
  refine ⟨rfl, rfl, rfl, by decide⟩

/-- Claim C8 (amended): in remote mode with paramiko importable, if any
of SYSTEM_HOST, SYSTEM_USER or SSH_PRIVATE_KEY is empty the strategy
returns exit code 1 with exactly the missing-configuration message, and
no connection is attempted (the trace is empty). -/
theorem c8_missing_config (w : SSHWorld) (env : Env) (cmds : List String)
    (hp : w.paramiko_installed = true)
    (h3 : (truthy (SYSTEM_HOST env) && truthy (SYSTEM_USER env)
           && truthy (SSH_PRIVATE_KEY env)) = false) :
    run_ssh w env cmds = (Except.ok (1, missingMsg), []) := by
  simp [run_ssh, hp, h3]

/-- Claim C8, witness: a concrete remote-mode run with paramiko
importable and all three values unset. -/
theorem c8_missing_config_witness :
    run_ssh wHappy envSshOnly DEFAULT_COMMANDS = (Except.ok (1, missingMsg), []) :=
  c8_missing_config wHappy envSshOnly DEFAULT_COMMANDS rfl (by decide)

/-- Claim C10: the paramiko-import check precedes the configuration
check: when paramiko is unavailable the strategy returns the paramiko
message regardless of the configuration values, and the
missing-configuration message can only be produced when paramiko is
importable. -/
theorem c10_paramiko_check_first (w : SSHWorld) (env : Env) (cmds : List String) :
    (w.paramiko_installed = false →
       run_ssh w env cmds = (Except.ok (1, paramikoMsg), [])) ∧
    ((run_ssh w env cmds).1 = Except.ok (1, missingMsg) →
       w.paramiko_installed = true) := by
  constructor
  · intro hp
    simp [run_ssh, hp]
  · intro hmiss
    cases hpi : w.paramiko_installed with
    | true => rfl
    | false =>
      have hred : run_ssh w env cmds = (Except.ok (1, paramikoMsg), []) := by
        simp [run_ssh, hpi]
      rw [hred] at hmiss
      simp [paramikoMsg, missingMsg] at hmiss

/-- Claim C10, witness: with paramiko unavailable and every remote value
unset, the result is the paramiko message, not the configuration one. -/
theorem c10_paramiko_check_first_witness :
    SYSTEM_HOST envSshOnly = "" ∧
    run_ssh wNoParamiko envSshOnly DEFAULT_COMMANDS =
      (Except.ok (1, paramikoMsg), []) :=
  ⟨rfl, (c10_paramiko_check_first wNoParamiko envSshOnly DEFAULT_COMMANDS).1 rfl⟩

/-- Local oracle for the fail-fast witness: command b exits 7, everything
else exits 0. -/
def lexecFail : String → Int × String × String :=
  fun c => if c = "b" then (7, "ob", "eb") else (0, "o" ++ c, "e" ++ c)

/-- Remote world for the fail-fast witness: command b exits 5, everything
else exits 0. -/
def wFailB : SSHWorld :=
  { wHappy with
    exec := fun c =>
      if c = "b" then Except.ok (5, "ob", "eb")
      else Except.ok (0, "o" ++ c, "e" ++ c) }

/-- Local-mode environment that still carries the three remote values. -/
def envLocalFull : Env := fun n =>
  if n = "SYSTEM_HOST" then some "host1"
  else if n = "SYSTEM_USER" then some "user1"
  else if n = "SSH_PRIVATE_KEY" then some "key1"
  else none

/-- Environment carrying only an override command. -/
def envCmd : Env := fun n =>
  if n = "AUTOMATION_COMMAND" then some "ls" else none

/-- Claim C4: when the command at position k is the first to exit
non-zero, both strategies return its exit code together with the
combined output of commands 1..k only, and the trace shows commands
k+1..n were never executed.  The command list is split as
pre ++ c :: post with every command of pre succeeding and c failing
under each strategy. -/
theorem c4_fail_fast (lexec : String → Int × String × String) (w : SSHWorld)
    (env : Env) (pre : List String) (c : String) (post : List String)
    (sio key : String) (rc : Int) (o2 e2 : String)
    (hp : w.paramiko_installed = true)
    (h3 : (truthy (SYSTEM_HOST env) && truthy (SYSTEM_USER env)
           && truthy (SSH_PRIVATE_KEY env)) = true)
    (hio : w.ioWrap (SSH_PRIVATE_KEY env) = Except.ok sio)
    (hkey : w.keyParse sio = Except.ok key)
    (hconn : w.connect (SYSTEM_HOST env) (SYSTEM_USER env) key = Except.ok ())
    (hpreL : ∀ x ∈ pre, (lexec x).1 = 0)
    (hcL : (lexec c).1 ≠ 0)
    (hpreS : ∀ x ∈ pre, ∃ o e, w.exec x = Except.ok (0, o, e))
    (hcS : w.exec c = Except.ok (rc, o2, e2))
    (hrc : rc ≠ 0) :
    run_local lexec (pre ++ c :: post) =
      ((lexec c).1, String.intercalate "\n" (localOutput lexec (pre ++ [c]))) ∧
    localEvents lexec (pre ++ c :: post) = (pre ++ [c]).map Event.execLocal ∧
    run_ssh w env (pre ++ c :: post) =
      (Except.ok (rc, String.intercalate "\n" (sshOutput w (pre ++ [c]))),
       Event.connectAttempt (SYSTEM_HOST env) (SYSTEM_USER env)
         :: Event.connected (SYSTEM_HOST env) (SYSTEM_USER env)
         :: ((pre ++ [c]).map Event.execRemote ++ [Event.closed])) := by
  refine ⟨?_, ?_, ?_⟩
  · simp [run_local, run_localGo_first_fail lexec pre c post hpreL hcL]
  · simp [localEvents, run_localGo_first_fail lexec pre c post hpreL hcL]
  · exact run_ssh_loop_ok w env (pre ++ c :: post) sio key rc
      (sshOutput w (pre ++ [c])) ((pre ++ [c]).map Event.execRemote)
      hp h3 hio hkey hconn
      (sshGo_first_fail w pre c post rc o2 e2 hpreS hcS hrc)

/-- Claim C4, witness: the list a, b, z where b is the first failure;
command z is not executed under either strategy. -/
theorem c4_fail_fast_witness :
    run_local lexecFail (["a"] ++ "b" :: ["z"]) =
      ((lexecFail "b").1,
       String.intercalate "\n" (localOutput lexecFail (["a"] ++ ["b"]))) ∧
    localEvents lexecFail (["a"] ++ "b" :: ["z"]) =
      (["a"] ++ ["b"]).map Event.execLocal ∧
    run_ssh wFailB envRemote (["a"] ++ "b" :: ["z"]) =
      (Except.ok (5, String.intercalate "\n" (sshOutput wFailB (["a"] ++ ["b"]))),
       Event.connectAttempt (SYSTEM_HOST envRemote) (SYSTEM_USER envRemote)
         :: Event.connected (SYSTEM_HOST envRemote) (SYSTEM_USER envRemote)
         :: ((["a"] ++ ["b"]).map Event.execRemote ++ [Event.closed])) :=
  c4_fail_fast lexecFail wFailB envRemote ["a"] "b" ["z"] "key1" "key1" 5 "ob" "eb"
    rfl (by decide) rfl rfl rfl
    (by intro x hx; simp at hx; subst hx; rfl)
    (by decide)
    (by intro x hx; simp at hx; subst hx; exact ⟨"oa", "ea", rfl⟩)
    rfl (by decide)

/-- Claim C5: when every command exits 0 the run returns exit code 0 and
a combined output holding, per command in order, its dollar-prefixed
line, stdout and stderr; the local-mode process then prints the summary
and exits with process status 0; the remote strategy behaves the same
way when it reaches its loop. -/
theorem c5_all_success (lexec : String → Int × String × String)
    (cmds : List String) (env : Env) (w : SSHWorld) (sio key : String)
    (hall : ∀ x ∈ cmds, (lexec x).1 = 0)
    (hm : SSH_MODE env = false)
    (hall2 : ∀ x ∈ commandsOf env, (lexec x).1 = 0)
    (hp : w.paramiko_installed = true)
    (h3 : (truthy (SYSTEM_HOST env) && truthy (SYSTEM_USER env)
           && truthy (SSH_PRIVATE_KEY env)) = true)
    (hio : w.ioWrap (SSH_PRIVATE_KEY env) = Except.ok sio)
    (hkey : w.keyParse sio = Except.ok key)
    (hconn : w.connect (SYSTEM_HOST env) (SYSTEM_USER env) key = Except.ok ())
    (hallS : ∀ x ∈ cmds, ∃ o e, w.exec x = Except.ok (0, o, e)) :
    run_local lexec cmds = (0, String.intercalate "\n" (localOutput lexec cmds)) ∧
    pyMain env w lexec =
      (Except.ok
        (dumps { ssh_mode := false, system_host := none, exit_code := 0,
                 output := String.intercalate "\n"
                             (localOutput lexec (commandsOf env)) }, 0),
       (commandsOf env).map Event.execLocal) ∧
    run_ssh w env cmds =
      (Except.ok (0, String.intercalate "\n" (sshOutput w cmds)),
       Event.connectAttempt (SYSTEM_HOST env) (SYSTEM_USER env)
         :: Event.connected (SYSTEM_HOST env) (SYSTEM_USER env)
         :: (cmds.map Event.execRemote ++ [Event.closed])) := by
  refine ⟨?_, ?_, ?_⟩
  · simp [run_local, run_localGo_all_zero lexec cmds hall]
  · rw [pyMain_local env w lexec hm]
    simp [run_local, localEvents, run_localGo_all_zero lexec (commandsOf env) hall2]
  · exact run_ssh_loop_ok w env cmds sio key 0 (sshOutput w cmds)
      (cmds.map Event.execRemote) hp h3 hio hkey hconn
      (sshGo_all_zero w cmds hallS)

/-- Claim C5, witness: a concrete all-success run in local mode, with
the remote loop also succeeding on the same list. -/
theorem c5_all_success_witness :
    run_local lexecZero ["a"] =
      (0, String.intercalate "\n" (localOutput lexecZero ["a"])) ∧
    pyMain envLocalFull wHappy lexecZero =
      (Except.ok
        (dumps { ssh_mode := false, system_host := none, exit_code := 0,
                 output := String.intercalate "\n"
                             (localOutput lexecZero (commandsOf envLocalFull)) }, 0),
       (commandsOf envLocalFull).map Event.execLocal) ∧
    run_ssh wHappy envLocalFull ["a"] =
      (Except.ok (0, String.intercalate "\n" (sshOutput wHappy ["a"])),
       Event.connectAttempt (SYSTEM_HOST envLocalFull) (SYSTEM_USER envLocalFull)
         :: Event.connected (SYSTEM_HOST envLocalFull) (SYSTEM_USER envLocalFull)
         :: (["a"].map Event.execRemote ++ [Event.closed])) :=
  c5_all_success lexecZero ["a"] envLocalFull wHappy "key1" "key1"
    (fun _ _ => rfl) rfl (fun _ _ => rfl) rfl (by decide) rfl rfl rfl
    (fun x _ => ⟨"", "", rfl⟩)

/-- Claim C6: the remote strategy is used exactly when AUTOMATE_VIA_SSH
equals the literal "1".  For every other value (or the variable unset)
the run is the local one and its trace never contains a connection
attempt or an opened session; when the value is "1" the run is the
remote one. -/
theorem c6_strategy_selection (env : Env) (w : SSHWorld)
    (lexec : String → Int × String × String) :
    (getenv env "AUTOMATE_VIA_SSH" "" ≠ "1" →
       SSH_MODE env = false ∧
       pyMain env w lexec =
         (Except.ok
           (dumps { ssh_mode := false, system_host := none,
                    exit_code := (run_local lexec (commandsOf env)).1,
                    output := (run_local lexec (commandsOf env)).2 },
            (run_local lexec (commandsOf env)).1),
          localEvents lexec (commandsOf env)) ∧
       (∀ h u, Event.connectAttempt h u ∉ (pyMain env w lexec).2) ∧
       (∀ h u, Event.connected h u ∉ (pyMain env w lexec).2)) ∧
    (getenv env "AUTOMATE_VIA_SSH" "" = "1" →
       SSH_MODE env = true ∧
       pyMain env w lexec =
         (match run_ssh w env (commandsOf env) with
          | (Except.error e, evs) => (Except.error e, evs)
          | (Except.ok r, evs) =>
            (Except.ok
              (dumps { ssh_mode := true, system_host := some (SYSTEM_HOST env),
                       exit_code := r.1, output := r.2 }, r.1), evs))) := by
  constructor
  · intro hne
    have hm : SSH_MODE env = false := by
      simp [SSH_MODE, hne]
    refine ⟨hm, pyMain_local env w lexec hm, ?_, ?_⟩
    · intro h u hmem
      rw [pyMain_local env w lexec hm] at hmem
      obtain ⟨c, hc⟩ := localEvents_mem lexec (commandsOf env) _ hmem
      simp at hc
    · intro h u hmem
      rw [pyMain_local env w lexec hm] at hmem
      obtain ⟨c, hc⟩ := localEvents_mem lexec (commandsOf env) _ hmem
      simp at hc
  · intro heq
    have hm : SSH_MODE env = true := by simp [SSH_MODE, heq]
    refine ⟨hm, ?_⟩
    rcases hrs : run_ssh w env (commandsOf env) with ⟨res, evs⟩
    rcases res with e | ⟨code, output⟩ <;> simp [pyMain, hm, hrs]

/-- Claim C6, witness: with every variable unset the run is local and no
connection is attempted. -/
theorem c6_strategy_selection_witness :
    SSH_MODE envNone = false ∧
    Event.connectAttempt "host1" "user1" ∉ (pyMain envNone wHappy lexecZero).2 :=
  ⟨((c6_strategy_selection envNone wHappy lexecZero).1 (by decide)).1,
   ((c6_strategy_selection envNone wHappy lexecZero).1 (by decide)).2.2.1
     "host1" "user1"⟩

/-- Claim C7: a non-empty AUTOMATION_COMMAND makes the command list
exactly the one-element list containing it; when the variable is unset
or empty the list is the built-in three-command default; and the list so
selected is the one the run executes under either strategy. -/
theorem c7_command_list_selection (env : Env) (s : String) (w : SSHWorld)
    (lexec : String → Int × String × String) :
    (env "AUTOMATION_COMMAND" = some s → s ≠ "" → commandsOf env = [s]) ∧
    (env "AUTOMATION_COMMAND" = none → commandsOf env = DEFAULT_COMMANDS) ∧
    (env "AUTOMATION_COMMAND" = some "" → commandsOf env = DEFAULT_COMMANDS) ∧
    DEFAULT_COMMANDS.length = 3 ∧
    (SSH_MODE env = false →
       (pyMain env w lexec).2 = localEvents lexec (commandsOf env)) ∧
    (SSH_MODE env = true →
       (pyMain env w lexec).2 = (run_ssh w env (commandsOf env)).2) := by
  refine ⟨?_, ?_, ?_, rfl, ?_, ?_⟩
  · intro h hs
    simp [commandsOf, AUTOMATION_COMMAND, getenv, h, truthy, hs]
  · intro h
    simp [commandsOf, AUTOMATION_COMMAND, getenv, h, truthy]
  · intro h
    simp [commandsOf, AUTOMATION_COMMAND, getenv, h, truthy]
  · intro hm
    rw [pyMain_local env w lexec hm]
  · intro hm
    rcases hrs : run_ssh w env (commandsOf env) with ⟨res, evs⟩
    rcases res with e | ⟨code, output⟩ <;> simp [pyMain, hm, hrs]

/-- Claim C7, witness: a concrete override and a concrete default
selection. -/
theorem c7_command_list_selection_witness :
    commandsOf envCmd = ["ls"] ∧ commandsOf envNone = DEFAULT_COMMANDS :=
  ⟨(c7_command_list_selection envCmd "ls" wHappy lexecZero).1 rfl (by decide),
   (c7_command_list_selection envNone "x" wHappy lexecZero).2.1 rfl⟩

/-- Document printed by the concrete local-mode run used to refute the
absent-field reading of the summary. -/
def docLocal : String :=
  dumps { ssh_mode := false, system_host := none, exit_code := 0,
          output := String.intercalate "\n" (localOutput lexecZero DEFAULT_COMMANDS) }

set_option maxRecDepth 40000 in
/-- Claim C9 fails as stated: in a local-mode run the serialized JSON
document does contain a system_host entry; Python None serializes as
JSON null, the key is not dropped. -/
theorem c9_counterexample :
    SSH_MODE envNone = false ∧
    (pyMain envNone wHappy lexecZero).1 = Except.ok (docLocal, 0) ∧
    strContains docLocal "\"system_host\": null" = true := by
  refine ⟨rfl, rfl, by decide⟩

/-- Claim C9 (amended): the printed JSON summary always has the four
fields ssh_mode, system_host, exit_code and output, in that order; in
local mode the system_host value is JSON null (the key is present), and
in remote mode it is the quoted host string.  Stated as the exact
document the code prints in local mode, plus the exact shape of the
serialized summary in remote mode. -/
theorem c9_summary_fields (env : Env) (w : SSHWorld)
    (lexec : String → Int × String × String) (hm : SSH_MODE env = false) :
    (pyMain env w lexec).1 =
      Except.ok
        ("\x7b\n  \"ssh_mode\": false,\n  \"system_host\": null,\n  \"exit_code\": "
           ++ toString (run_local lexec (commandsOf env)).1
           ++ ",\n  \"output\": \"" ++ jsonEscape (run_local lexec (commandsOf env)).2
           ++ "\"\n\x7d",
         (run_local lexec (commandsOf env)).1) ∧
    (∀ (h : String) (code : Int) (out : String),
       dumps { ssh_mode := true, system_host := some h, exit_code := code,
               output := out } =
         "\x7b\n  \"ssh_mode\": true,\n  \"system_host\": "
           ++ ("\"" ++ jsonEscape h ++ "\"")
           ++ ",\n  \"exit_code\": " ++ toString code
           ++ ",\n  \"output\": \"" ++ jsonEscape out ++ "\"\n\x7d") := by
  constructor
  · rw [pyMain_local env w lexec hm]
    rfl
  · intro h code out
    rfl

/-- Claim C9, witness: the local-mode document shape at a concrete
environment. -/
theorem c9_summary_fields_witness :
    (pyMain envNone wHappy lexecZero).1 =
      Except.ok
        ("\x7b\n  \"ssh_mode\": false,\n  \"system_host\": null,\n  \"exit_code\": "
           ++ toString (run_local lexecZero (commandsOf envNone)).1
           ++ ",\n  \"output\": \""
           ++ jsonEscape (run_local lexecZero (commandsOf envNone)).2
           ++ "\"\n\x7d",
         (run_local lexecZero (commandsOf envNone)).1) :=
  (c9_summary_fields envNone wHappy lexecZero rfl).1
